import Mathlib

/-!
Verification development for the demo Python module `demo_python.py`
(functions `hello_world` and `add_numbers`, and the `__main__` block),
checked against its unit tests in `test_demo_python.py`.

The embedding models the Python values the module can touch: arbitrary
precision integers (as ℤ), floats with the IEEE special values NaN, +inf
and -inf (finite floats are carried as exact rationals; every claim below
depends only on exact dyadic sums and on special-value propagation, never
on rounding), strings, and None.  Python's binary `+` and `==` operators
are embedded as total Lean functions; `+` on an unsupported operand pair
returns a TypeError value, matching the runtime's behaviour.
-/

namespace DemoPython

/-- A Python float: either a finite value (carried exactly as a rational;
the module never performs an inexact operation in any claim below), or one
of the IEEE special values. -/
inductive PyFloat where
  | finite (q : ℚ)
  | inf
  | ninf
  | nan
  deriving DecidableEq

/-- IEEE-754 / Python semantics of `+` on floats: NaN is absorbing, opposite
infinities give NaN, an infinity otherwise dominates, finite values add. -/
def PyFloat.add : PyFloat → PyFloat → PyFloat
  | .nan, _ => .nan
  | _, .nan => .nan
  | .inf, .ninf => .nan
  | .ninf, .inf => .nan
  | .inf, _ => .inf
  | _, .inf => .inf
  | .ninf, _ => .ninf
  | _, .ninf => .ninf
  | .finite p, .finite q => .finite (p + q)

/-- Python `==` on floats: NaN compares unequal to everything, including
itself; the other values compare by mathematical value. -/
def PyFloat.eq : PyFloat → PyFloat → Bool
  | .nan, _ => false
  | _, .nan => false
  | .finite p, .finite q => p == q
  | .inf, .inf => true
  | .ninf, .ninf => true
  | _, _ => false

/-- The Python values reachable in this module: integers (arbitrary
precision), floats, strings, and None. -/
inductive PyVal where
  | int (n : ℤ)
  | float (x : PyFloat)
  | str (s : String)
  | none
  deriving DecidableEq

/-- The only runtime error the module can surface: a TypeError from `+`
applied to an unsupported operand pair. -/
inductive PyError where
  | typeError
  deriving DecidableEq

/-- Python's binary `+` on the modelled values: int+int adds exactly,
any float operand promotes (ints are converted to the equal finite float),
str+str concatenates, and every other pair raises TypeError. -/
def pyAdd : PyVal → PyVal → Except PyError PyVal
  | .int a, .int b => .ok (.int (a + b))
  | .int a, .float x => .ok (.float (PyFloat.add (.finite (a : ℚ)) x))
  | .float x, .int b => .ok (.float (PyFloat.add x (.finite (b : ℚ))))
  | .float x, .float y => .ok (.float (PyFloat.add x y))
  | .str s, .str t => .ok (.str (s ++ t))
  | _, _ => .error .typeError

/-- Embedding of `add_numbers(a, b)` from `demo_python.py`: the body is
exactly `return a + b`. -/
def add_numbers (a b : PyVal) : Except PyError PyVal := pyAdd a b

/-- Embedding of `hello_world()` from `demo_python.py`: returns the fixed
literal string. -/
def hello_world : String := "Hello, World from Python CI!"

/-- Python `==` on the modelled values: numeric values compare by value
across int/float (with NaN unequal to everything), strings compare by
content, None equals None, and values of unrelated types compare unequal. -/
def pyEq : PyVal → PyVal → Bool
  | .int a, .int b => a == b
  | .int a, .float x => PyFloat.eq (.finite (a : ℚ)) x
  | .float x, .int b => PyFloat.eq x (.finite (b : ℚ))
  | .float x, .float y => PyFloat.eq x y
  | .str s, .str t => s == t
  | .none, .none => true
  | _, _ => false

/-- Whether a value is a Python int. -/
def PyVal.isInt : PyVal → Bool
  | .int _ => true
  | _ => false

/-- Whether a value is a Python float. -/
def PyVal.isFloat : PyVal → Bool
  | .float _ => true
  | _ => false

/-- Whether a value is a Python str. -/
def PyVal.isStr : PyVal → Bool
  | .str _ => true
  | _ => false

/-- Whether a value is numeric (int or float); the module's adder is
specified over these. -/
def PyVal.isNumeric (v : PyVal) : Bool := v.isInt || v.isFloat

/-- Whether a value is the float NaN. -/
def PyVal.isNan : PyVal → Bool
  | .float .nan => true
  | _ => false

/-- Whether `+` is supported on an operand pair in this module's value
universe: both operands numeric, or both strings. -/
def addSupported (a b : PyVal) : Bool :=
  (a.isNumeric && b.isNumeric) || (a.isStr && b.isStr)

/-- Python `str()` of a modelled value, as used by the f-string in the
`__main__` block.  Only the int case is exercised by the module; the
finite-float rendering is approximate (Python's float repr is not
modelled) and no claim depends on it. -/
def pyStrOfVal : PyVal → String
  | .int n => toString n
  | .str s => s
  | .none => "None"
  | .float .inf => "inf"
  | .float .ninf => "-inf"
  | .float .nan => "nan"
  | .float (.finite q) => toString q

/-- Embedding of the `__main__` block: it prints `hello_world()` and the
f-string over `add_numbers(2, 3)`, and the process exits with status 0
when no exception escapes (an uncaught error would propagate instead). -/
def pyMain : Except PyError (List String × Nat) := do
  let r ← add_numbers (.int 2) (.int 3)
  pure ([hello_world, "2 + 3 = " ++ pyStrOfVal r], 0)

/-- A call to `hello_world` in an arbitrary program state `s` of any state
type `σ`: the body touches no state, so the state passes through. -/
def callHelloWorld (σ : Type) (s : σ) : String × σ := (hello_world, s)

/-- A call to `add_numbers` in an arbitrary program state `s` of any state
type `σ`: the body touches no state, so the state passes through. -/
def callAddNumbers (σ : Type) (a b : PyVal) (s : σ) :
    (Except PyError PyVal) × σ := (add_numbers a b, s)

/-- Helper: float addition is commutative in the model (finite sums commute
and the special-value table is symmetric). -/
theorem PyFloat.add_commutes (x y : PyFloat) : PyFloat.add x y = PyFloat.add y x := by
  cases x <;> cases y <;> simp [PyFloat.add, Rat.add_comm]

/-- Helper: Python `==` of a modelled value with itself is true exactly
when the value is not NaN. -/
theorem pyEq_self (x : PyVal) : pyEq x x = !x.isNan := by
  cases x with
  | int n => simp [pyEq, PyVal.isNan]
  | float f => cases f <;> simp [pyEq, PyFloat.eq, PyVal.isNan]
  | str s => simp [pyEq, PyVal.isNan]
  | none => simp [pyEq, PyVal.isNan]

/-- Claim C1: for every pair of integers a and b, add_numbers returns the
exact arithmetic sum a + b, and the result is an integer value. -/
theorem add_numbers_int_sum (a b : ℤ) :
    add_numbers (.int a) (.int b) = .ok (.int (a + b)) ∧
    (PyVal.int (a + b)).isInt = true :=
  ⟨rfl, rfl⟩

/-- Claim C2: hello_world takes no input and always returns exactly the
string "Hello, World from Python CI!"; the result is textual (a String by
type). -/
theorem hello_world_returns_greeting :
    hello_world = "Hello, World from Python CI!" := rfl

/-- Claim C3 counterexample: commutativity under Python == fails at
a = NaN, b = 1: both add_numbers(NaN, 1) and add_numbers(1, NaN) return
NaN, but NaN == NaN is False, so add_numbers(a, b) == add_numbers(b, a)
does not hold for all numeric a, b. -/
theorem add_numbers_comm_nan_cex :
    add_numbers (.float .nan) (.int 1) = .ok (.float .nan) ∧
    add_numbers (.int 1) (.float .nan) = .ok (.float .nan) ∧
    pyEq (.float .nan) (.float .nan) = false ∧
    ¬ (∀ a b : PyVal, a.isNumeric = true → b.isNumeric = true →
        ∀ x y : PyVal, add_numbers a b = Except.ok x →
          add_numbers b a = Except.ok y → pyEq x y = true) := by
  refine ⟨rfl, rfl, rfl, fun h => ?_⟩
  have hc := h (.float .nan) (.int 1) rfl rfl (.float .nan) (.float .nan) rfl rfl
  simp [pyEq, PyFloat.eq] at hc

/-- Claim C3 amended: for all numeric a and b, add_numbers(a, b) and
add_numbers(b, a) return the identical value, NaN results included; the ==
comparison of that common result with itself holds exactly when the result
is not NaN. -/
theorem add_numbers_comm_amended (a b x : PyVal)
    (ha : a.isNumeric = true) (hb : b.isNumeric = true)
    (hx : add_numbers a b = Except.ok x) :
    add_numbers a b = add_numbers b a ∧ pyEq x x = !x.isNan := by
  constructor
  · cases a <;> cases b <;>
      simp_all [add_numbers, pyAdd, PyVal.isNumeric, PyVal.isInt,
        PyVal.isFloat, PyFloat.add_commutes, Int.add_comm]
  · exact pyEq_self x

/-- Witness for the amended C3 theorem at a = 2, b = 3, result 5. -/
theorem add_numbers_comm_amended_witness :
    add_numbers (.int 2) (.int 3) = add_numbers (.int 3) (.int 2) ∧
    pyEq (.int 5) (.int 5) = !(PyVal.int 5).isNan :=
  add_numbers_comm_amended (.int 2) (.int 3) (.int 5)
    (by decide) (by decide) rfl

/-- Claim C4: whenever both operands are numeric and at least one is a
float, the result of add_numbers is a float; in particular
add_numbers(2.5, 1.5) is the float 4.0 and add_numbers(1, 2.0) is the
float 3.0, each == the expected float. -/
theorem add_numbers_float_promotion (a b x : PyVal)
    (ha : a.isNumeric = true) (hb : b.isNumeric = true)
    (hf : (a.isFloat || b.isFloat) = true)
    (hx : add_numbers a b = Except.ok x) :
    x.isFloat = true ∧
    add_numbers (.float (.finite (5 / 2))) (.float (.finite (3 / 2))) =
      .ok (.float (.finite 4)) ∧
    pyEq (.float (.finite 4)) (.float (.finite 4)) = true ∧
    add_numbers (.int 1) (.float (.finite 2)) = .ok (.float (.finite 3)) ∧
    pyEq (.float (.finite 3)) (.float (.finite 3)) = true := by
  refine ⟨?_, by norm_num [add_numbers, pyAdd, PyFloat.add], by decide,
    by norm_num [add_numbers, pyAdd, PyFloat.add], by decide⟩
  cases a with
  | int m =>
    cases b with
    | int n => simp [PyVal.isFloat] at hf
    | float y =>
      simp only [add_numbers, pyAdd, Except.ok.injEq] at hx
      subst hx; rfl
    | str u => simp [PyVal.isNumeric, PyVal.isInt, PyVal.isFloat] at hb
    | none => simp [PyVal.isNumeric, PyVal.isInt, PyVal.isFloat] at hb
  | float f =>
    cases b with
    | int n =>
      simp only [add_numbers, pyAdd, Except.ok.injEq] at hx
      subst hx; rfl
    | float y =>
      simp only [add_numbers, pyAdd, Except.ok.injEq] at hx
      subst hx; rfl
    | str u => simp [PyVal.isNumeric, PyVal.isInt, PyVal.isFloat] at hb
    | none => simp [PyVal.isNumeric, PyVal.isInt, PyVal.isFloat] at hb
  | str u => simp [PyVal.isNumeric, PyVal.isInt, PyVal.isFloat] at ha
  | none => simp [PyVal.isNumeric, PyVal.isInt, PyVal.isFloat] at ha

/-- Witness for the C4 theorem at a = 2.5, b = 1.5, result 4.0. -/
theorem add_numbers_float_promotion_witness :
    (PyVal.float (.finite 4)).isFloat = true ∧
    add_numbers (.float (.finite (5 / 2))) (.float (.finite (3 / 2))) =
      .ok (.float (.finite 4)) ∧
    pyEq (.float (.finite 4)) (.float (.finite 4)) = true ∧
    add_numbers (.int 1) (.float (.finite 2)) = .ok (.float (.finite 3)) ∧
    pyEq (.float (.finite 3)) (.float (.finite 3)) = true :=
  add_numbers_float_promotion (.float (.finite (5 / 2)))
    (.float (.finite (3 / 2))) (.float (.finite 4))
    (by decide) (by decide) (by decide)
    (by norm_num [add_numbers, pyAdd, PyFloat.add])

/-- Claim C5 counterexample: two strings are non-numeric operands, yet
add_numbers("ab", "cd") succeeds with the concatenation "abcd" instead of
raising a type error; hence not every non-numeric operand fails. -/
theorem add_numbers_nonnumeric_cex :
    (PyVal.str "ab").isNumeric = false ∧
    add_numbers (.str "ab") (.str "cd") = .ok (.str "abcd") ∧
    ¬ (∀ a b : PyVal, (a.isNumeric = false ∨ b.isNumeric = false) →
        add_numbers a b = .error .typeError) := by
  refine ⟨rfl, rfl, fun h => ?_⟩
  have hc := h (.str "ab") (.str "cd") (Or.inl rfl)
  simp [add_numbers, pyAdd] at hc

/-- Claim C5 amended: add_numbers raises a TypeError, propagated to the
caller, exactly when the operand pair does not support +: that is, unless
both operands are numeric or both are strings (str + str concatenates). -/
theorem add_numbers_type_error_iff (a b : PyVal) :
    addSupported a b = false ↔ add_numbers a b = .error .typeError := by
  cases a <;> cases b <;>
    simp [addSupported, add_numbers, pyAdd, PyVal.isNumeric, PyVal.isInt,
      PyVal.isFloat, PyVal.isStr]

/-- Claim C6: run directly, the module prints the greeting and the line
"2 + 3 = 5" to standard output and exits with status 0. -/
theorem pyMain_output :
    pyMain = .ok (["Hello, World from Python CI!", "2 + 3 = 5"], 0) := rfl

/-- Claim C7: the four unit-test equations of add_numbers hold:
2 + 3 = 5, 0 + 0 = 0, -1 + 1 = 0 and 10 + (-5) = 5. -/
theorem add_numbers_unit_equations :
    add_numbers (.int 2) (.int 3) = .ok (.int 5) ∧
    add_numbers (.int 0) (.int 0) = .ok (.int 0) ∧
    add_numbers (.int (-1)) (.int 1) = .ok (.int 0) ∧
    add_numbers (.int 10) (.int (-5)) = .ok (.int 5) :=
  ⟨rfl, rfl, rfl, rfl⟩

/-- Claim C8: integer addition via add_numbers is exact mathematical
addition over unbounded integers: for all integers a and b, however large,
the result is the true sum, with no overflow or precision loss;
illustrated at 10^30 + 10^30. -/
theorem add_numbers_int_exact_unbounded (a b : ℤ) :
    add_numbers (.int a) (.int b) = .ok (.int (a + b)) ∧
    add_numbers (.int (10 ^ 30)) (.int (10 ^ 30)) =
      .ok (.int (2 * 10 ^ 30)) := by
  refine ⟨rfl, by norm_num [add_numbers, pyAdd]⟩

/-- Claim C9: hello_world and add_numbers are deterministic stateless pure
functions: called in any two program states they return equal results, and
each call leaves the program state unchanged. -/
theorem functions_pure_stateless (σ : Type) (a b : PyVal) (s t : σ) :
    (callHelloWorld σ s).1 = (callHelloWorld σ t).1 ∧
    (callHelloWorld σ s).2 = s ∧
    (callAddNumbers σ a b s).1 = (callAddNumbers σ a b t).1 ∧
    (callAddNumbers σ a b s).2 = s :=
  ⟨rfl, rfl, rfl, rfl⟩

/-- Claim C10: for every pair of strings s and t, add_numbers(s, t) does
not raise but returns the concatenation of s and t; in particular
add_numbers("ab", "cd") is "abcd". -/
theorem add_numbers_str_concat (s t : String) :
    add_numbers (.str s) (.str t) = .ok (.str (s ++ t)) ∧
    add_numbers (.str "ab") (.str "cd") = .ok (.str "abcd") :=
  ⟨rfl, rfl⟩

end DemoPython
